import Mathlib

/-!
Verification development for the task-processing backend
(interaction-log store, task processor, HTTP route handlers).

The embedding is shallow:

* `better-sqlite3` table state is a `Db`, a list of rows in insertion order;
  SQL statements become pure functions on that list.
* JavaScript exceptions become `Except`: a method body that may receive an
  engine fault takes an `Option EngineFault` parameter (the nondeterministic
  fault injected by the storage engine during that call); a method without a
  `try/catch` surfaces the fault in its `Except` result, a method with a
  `try/catch` maps the fault to its catch-branch return value.
* The `metadata` TEXT column holds `JSON.stringify(log.metadata)`; since the
  store writes the serialized blob and reads it back through `JSON.parse`
  without ever touching it, the column is modelled by the metadata value
  itself (data refinement along the host platform's stringify/parse pair).
* Machine numbers that matter (statistics) are modelled with `Rat`, where
  the SQL arithmetic is exact.
-/

namespace TaskApp

/-- Loosely typed JavaScript value appearing inside a metadata bag
(`Record<string, any>` in `src/types.ts`). -/
inductive JsVal where
  | vNull
  | vAbsent
  | vBool (b : Bool)
  | vNum (n : Int)
  | vStr (s : String)
deriving DecidableEq, Repr

/-- Metadata bag: a JavaScript object, i.e. an ordered association list of
string keys to values. -/
abbrev Metadata := List (String × JsVal)

/-- One `InteractionLog` record (`src/types.ts`); doubles as one row of the
`interaction_logs` table, whose columns are exactly these fields. -/
structure InteractionLog where
  id : String
  task : String
  response : String
  status : String
  timestamp : String
  processingTime : Int
  userAgent : Option String := none
  ipAddress : Option String := none
  metadata : Option Metadata := none
deriving DecidableEq, Repr

/-- Fault raised by the storage engine (a `better-sqlite3` exception). -/
structure EngineFault where
  message : String
deriving DecidableEq, Repr

/-- State of the `interaction_logs` table, rows in insertion order. -/
structure Db where
  rows : List InteractionLog
deriving DecidableEq, Repr

/-- JavaScript `v || null` on an optional string: `undefined` and the falsy
empty string both collapse to `null` (used for the `user_agent` and
`ip_address` insert parameters in `saveInteractionLog`). -/
def jsStrOrNull (v : Option String) : Option String :=
  match v with
  | some s => if s = "" then none else some s
  | none => none

/-- CHECK constraint of `initializeTables`:
`status IN ('success', 'error')`. -/
def validStatus (s : String) : Bool :=
  s = "success" || s = "error"

/-- Row produced by the INSERT of `saveInteractionLog`: the log with the
JavaScript `|| null` coercions applied to the optional columns; the metadata
blob is the (refined) metadata value itself. -/
def rowOfLog (log : InteractionLog) : InteractionLog :=
  { log with
    userAgent := jsStrOrNull log.userAgent
    ipAddress := jsStrOrNull log.ipAddress }

/-- Store operation `DatabaseService.saveInteractionLog`: a single INSERT, no `try/catch`.
An engine fault propagates to the caller; otherwise the engine enforces the
PRIMARY KEY on `id` and the CHECK constraint on `status`, and on success
appends the row. -/
def saveInteractionLog (fault : Option EngineFault) (log : InteractionLog)
    (db : Db) : Except EngineFault Db :=
  match fault with
  | some e => .error e
  | none =>
    if db.rows.any (fun r => r.id = log.id) then
      .error ⟨"UNIQUE constraint failed: interaction_logs.id"⟩
    else if validStatus log.status then
      .ok ⟨db.rows ++ [rowOfLog log]⟩
    else
      .error ⟨"CHECK constraint failed: interaction_logs"⟩

/-- Lexicographic comparison of character lists, the order SQLite's BINARY
collation puts on TEXT values (byte order on UTF-8 agrees with code-point
order). -/
def lexLe : List Char → List Char → Bool
  | [], _ => true
  | _ :: _, [] => false
  | a :: as, b :: bs =>
    if a < b then true
    else if b < a then false
    else lexLe as bs

/-- Non-strict timestamp comparison used by `ORDER BY timestamp DESC`. -/
def tsLe (a b : String) : Prop :=
  lexLe a.data b.data = true

/-- Strict timestamp comparison (below `tsLe` is shown antisymmetric, so
this is the strict part of a linear order). -/
def tsLt (a b : String) : Prop :=
  lexLe a.data b.data = true ∧ a ≠ b

instance (a b : String) : Decidable (tsLe a b) :=
  inferInstanceAs (Decidable (_ = _))

instance (a b : String) : Decidable (tsLt a b) :=
  inferInstanceAs (Decidable (_ ∧ _))

/-- Ordering used by `ORDER BY timestamp DESC`. -/
def tsDesc (a b : InteractionLog) : Prop :=
  tsLe b.timestamp a.timestamp

instance : DecidableRel tsDesc :=
  fun a b => inferInstanceAs (Decidable (tsLe b.timestamp a.timestamp))

/-- Result set of `SELECT * FROM interaction_logs ORDER BY timestamp DESC`
(one sort consistent with the DESC ordering; ties between equal timestamps
are left in engine order). -/
def sortByTimestampDesc (rows : List InteractionLog) : List InteractionLog :=
  rows.insertionSort tsDesc

/-- SQLite `LIMIT ? OFFSET ?` applied to a result set: a negative OFFSET
counts as zero, a negative LIMIT means no upper bound. -/
def sqliteWindow (limit offset : Int) (rows : List InteractionLog) :
    List InteractionLog :=
  let afterOffset := rows.drop (max offset 0).toNat
  if limit < 0 then afterOffset else afterOffset.take limit.toNat

/-- Store operation `DatabaseService.getInteractionLogs`: SELECT ordered by timestamp
descending with LIMIT/OFFSET, each row mapped back to an `InteractionLog`.
No `try/catch`: an engine fault propagates. -/
def getInteractionLogs (fault : Option EngineFault) (limit offset : Int)
    (db : Db) : Except EngineFault (List InteractionLog) :=
  match fault with
  | some e => .error e
  | none => .ok (sqliteWindow limit offset (sortByTimestampDesc db.rows))

/-- Store operation `DatabaseService.getInteractionLogById`: a `SELECT ... WHERE id = ?` via
`stmt.get`, i.e. the first matching row or `null`.  No `try/catch`: an
engine fault propagates. -/
def getInteractionLogById (fault : Option EngineFault) (id : String)
    (db : Db) : Except EngineFault (Option InteractionLog) :=
  match fault with
  | some e => .error e
  | none => .ok (db.rows.find? (fun r => r.id = id))

/-- Raw result of the aggregate stats query: `COUNT(*)`,
`SUM(CASE WHEN status = 'success' THEN 1 ELSE 0 END)` and
`AVG(processing_time)`; the SUM and AVG aggregates are NULL on an empty
table. -/
structure RawStats where
  total : Nat
  success : Option Int
  avgTime : Option Rat
deriving DecidableEq, Repr

/-- Value `CASE WHEN status = 'success' THEN 1 ELSE 0 END` for one row. -/
def successIndicator (r : InteractionLog) : Int :=
  if r.status = "success" then 1 else 0

/-- Engine semantics of the single aggregate query in `getStats`. -/
def statsQuery (db : Db) : RawStats :=
  { total := db.rows.length
    success :=
      if db.rows.isEmpty then none
      else some (db.rows.map successIndicator).sum
    avgTime :=
      if db.rows.isEmpty then none
      else some (((db.rows.map (fun r => r.processingTime)).sum : Rat) /
        (db.rows.length : Rat)) }

/-- JavaScript `v || 0` on a nullable number: `null` coalesces to `0`
(and the falsy number `0` coalesces to itself). -/
def jsNumOrZero (v : Option Rat) : Rat :=
  match v with
  | some x => if x = 0 then 0 else x
  | none => 0

/-- Aggregate statistics returned by `DatabaseService.getStats`. -/
structure Stats where
  totalInteractions : Nat
  successRate : Rat
  averageProcessingTime : Rat
deriving DecidableEq, Repr

/-- Store operation `DatabaseService.getStats`: wrapped in `try/catch`; the catch branch
logs and returns the all-zero record.  Otherwise `totalInteractions` is the
count, `successRate` is `(success / total) * 100` guarded by `total > 0`,
and `averageProcessingTime` is the AVG aggregate with `|| 0` coalescing. -/
def getStats (fault : Option EngineFault) (db : Db) : Stats :=
  match fault with
  | some _ => ⟨0, 0, 0⟩
  | none =>
    let result := statsQuery db
    { totalInteractions := result.total
      successRate :=
        if result.total > 0 then
          (((result.success.getD 0 : Int) : Rat) / (result.total : Rat)) * 100
        else 0
      averageProcessingTime := jsNumOrZero result.avgTime }

/-- Store operation `DatabaseService.deleteInteractionLog`: a `DELETE ... WHERE id = ?` inside
a `try/catch` whose catch branch returns `false`; otherwise reports whether
`changes > 0`.  Returns the result paired with the table state afterwards. -/
def deleteInteractionLog (fault : Option EngineFault) (id : String)
    (db : Db) : Bool × Db :=
  match fault with
  | some _ => (false, db)
  | none =>
    let changes := db.rows.countP (fun r => r.id = id)
    (decide (changes > 0), ⟨db.rows.filter (fun r => ¬ r.id = id)⟩)

/-- Store operation `DatabaseService.deleteAllInteractionLogs`: unconditional DELETE inside
a `try/catch` whose catch branch returns `0`; otherwise returns the number
of removed rows and empties the table. -/
def deleteAllInteractionLogs (fault : Option EngineFault) (db : Db) :
    Nat × Db :=
  match fault with
  | some _ => (0, db)
  | none => (db.rows.length, ⟨[]⟩)

/-- Schema invariant of `interaction_logs` (PRIMARY KEY on `id`, CHECK on
`status`): ids are pairwise distinct and every status is in the two-value
enum. -/
def Inv (db : Db) : Prop :=
  (db.rows.map (fun r => r.id)).Nodup ∧
    ∀ r ∈ db.rows, validStatus r.status = true

instance (db : Db) : Decidable (Inv db) :=
  inferInstanceAs (Decidable (_ ∧ _))

/-! ## Task processor (`src/services/aiService.ts`) -/

/-- Task submission payload (`TaskRequest` in `src/types.ts`); `priority` is
kept as an optional string, matching the loosely validated wire value. -/
structure TaskRequest where
  task : String
  context : Option String := none
  priority : Option String := none
deriving DecidableEq, Repr

/-- Processor result (`TaskResponse` in `src/types.ts`). -/
structure TaskResponse where
  id : String
  task : String
  response : String
  status : String
  timestamp : String
  processingTime : Int
  metadata : Option Metadata := none
deriving DecidableEq, Repr

/-- Value thrown by a failing backend call: either a JavaScript `Error`
carrying a message, or some non-`Error` value. -/
inductive JsThrown where
  | jsError (message : String)
  | nonError
deriving DecidableEq, Repr

/-- Expression `error instanceof Error ? error.message : 'Unknown error'`. -/
def jsErrorMessage : JsThrown → String
  | .jsError m => m
  | .nonError => "Unknown error"

/-- JavaScript `request.priority || 'medium'` (the empty string is falsy). -/
def priorityOrDefault (p : Option String) : String :=
  match p with
  | some s => if s = "" then "medium" else s
  | none => "medium"

/-- Metadata value for a key whose JavaScript value may be `undefined`
(`context: request.context`). -/
def optStrVal (o : Option String) : JsVal :=
  match o with
  | some s => .vStr s
  | none => .vAbsent

/-- Processor entry `AIService.processTask`: wraps the awaited backend call in `try/catch`.
The backend outcome (the OpenAI completion string, or the value thrown by
the failed call) enters as the `backend` parameter; `taskId` is the
generated UUID, `now` the ISO timestamp, `elapsed` the measured
`Date.now()` difference in milliseconds. -/
def processTask (taskId now : String) (elapsed : Int)
    (backend : Except JsThrown String) (request : TaskRequest) :
    TaskResponse :=
  match backend with
  | .ok response =>
    { id := taskId
      task := request.task
      response := response
      status := "success"
      timestamp := now
      processingTime := elapsed
      metadata := some
        [("priority", .vStr (priorityOrDefault request.priority)),
         ("context", optStrVal request.context),
         ("model", .vStr "gpt-3.5-turbo")] }
  | .error e =>
    { id := taskId
      task := request.task
      response := "Error processing task: " ++ jsErrorMessage e
      status := "error"
      timestamp := now
      processingTime := elapsed
      metadata := some
        [("priority", .vStr (priorityOrDefault request.priority)),
         ("context", optStrVal request.context),
         ("error", .vStr (jsErrorMessage e))] }

/-- List-level substring test underlying JavaScript `String.includes`. -/
def charsInclude (l pat : List Char) : Bool :=
  match l with
  | [] => pat.isEmpty
  | _ :: t => pat.isPrefixOf l || charsInclude t pat

/-- JavaScript `s.includes(pat)`. -/
def strIncludes (s pat : String) : Bool :=
  charsInclude s.data pat.data

/-- JavaScript `s.toLowerCase()` (the task texts involved are ASCII, where
the builtin agrees with per-character lowering). -/
def jsToLowerCase (s : String) : String :=
  ⟨s.data.map Char.toLower⟩

/-- JavaScript `s.trim()`: strip leading and trailing whitespace. -/
def jsTrim (s : String) : String :=
  ⟨((s.data.dropWhile Char.isWhitespace).reverse.dropWhile
      Char.isWhitespace).reverse⟩

/-- Canned template returned by `simulateTaskProcessing` for a task whose
lowercased text contains "analyze leads" (verbatim from the source,
non-ASCII characters escaped). -/
def leadAnalysisReport : String :=
  "Lead Analysis Report:\n      \nğŸ“Š **Summary**\n- Total leads: 150\n- Qualified leads: 45 (30%)\n- Hot prospects: 12 (8%)\n\nğŸ¯ **Top Performing Sources**\n1. LinkedIn (35% conversion)\n2. Website referrals (28% conversion)\n3. Email campaigns (22% conversion)\n\nğŸ“ˆ **Recommendations**\n- Focus on LinkedIn lead nurturing\n- Optimize website conversion funnel\n- Implement lead scoring system\n\nâ° **Next Steps**\n- Schedule follow-up calls for hot prospects\n- Create targeted content for qualified leads\n- Review and update lead qualification criteria"

/-- Canned template for a task containing "summarize calls". -/
def callSummaryReport : String :=
  "Call Summary Report:\n\nğŸ“ **Call Overview**\n- Total calls: 25\n- Average duration: 12 minutes\n- Follow-up required: 8 calls\n\nğŸ¯ **Key Outcomes**\n- 5 new qualified leads identified\n- 3 product demos scheduled\n- 2 pricing discussions initiated\n\nğŸ“ **Action Items**\n- Follow up with 3 prospects by Friday\n- Send product information to 5 leads\n- Schedule technical demo for enterprise client\n\nâš ï¸ **Issues Identified**\n- 2 prospects mentioned budget constraints\n- 1 lead needs additional technical validation"

/-- Canned template for a task containing "update client report". -/
def clientReportUpdate : String :=
  "Client Report Update:\n\nğŸ“‹ **Report Status: Updated**\n\nğŸ“Š **Key Metrics**\n- Client satisfaction: 4.8/5\n- Project completion: 85%\n- On-time delivery: 92%\n\nğŸ¯ **Recent Achievements**\n- Completed Phase 2 deliverables\n- Resolved 3 critical issues\n- Implemented requested feature updates\n\nğŸ“ˆ **Progress Summary**\n- Milestone 1: âœ… Completed\n- Milestone 2: âœ… Completed  \n- Milestone 3: ğŸ”„ In Progress (85% complete)\n- Milestone 4: â³ Pending\n\nğŸ“… **Next Steps**\n- Complete final testing phase\n- Prepare final deliverables\n- Schedule project review meeting"

/-- Nested template `request.context ? \x60... **Context**: ...\x60 : ''`
inside the generic acknowledgement. -/
def contextLine (c : Option String) : String :=
  match c with
  | some s => if s = "" then "" else "ğŸ“ **Context**: " ++ s
  | none => ""

/-- Generic acknowledgement template for an unrecognized task; the template
literal alternates fixed segments with the interpolations `request.task`,
`new Date().toLocaleString()` (parameter `nowLocale`),
`request.priority || 'medium'` and the context line. -/
def genericTaskResponse (request : TaskRequest) (nowLocale : String) :
    String :=
  "Task completed successfully: \"" ++
    (request.task ++
      ("\"\n\nâœ… **Status**: Completed\nğŸ“… **Timestamp**: " ++
        (nowLocale ++
          ("\nğŸ¯ **Priority**: " ++
            (priorityOrDefault request.priority ++
              ("\n\n" ++
                (contextLine request.context ++
                  "\n\nThe task has been processed and is ready for review.")))))))

/-- Processor entry `AIService.simulateTaskProcessing`: after the artificial delay, the
lowercased task text is matched against three hardcoded phrases; the result
always has `status = 'success'` and `metadata.simulated = true`.  The delay
and both clock readings are parameters (`elapsed` is the measured
processing time, `nowLocale` the locale-formatted time used by the generic
template). -/
def simulateTaskProcessing (taskId now nowLocale : String) (elapsed : Int)
    (request : TaskRequest) : TaskResponse :=
  let taskLower := jsToLowerCase request.task
  let response :=
    if strIncludes taskLower "analyze leads" then leadAnalysisReport
    else if strIncludes taskLower "summarize calls" then callSummaryReport
    else if strIncludes taskLower "update client report" then
      clientReportUpdate
    else genericTaskResponse request nowLocale
  { id := taskId
    task := request.task
    response := response
    status := "success"
    timestamp := now
    processingTime := elapsed
    metadata := some
      [("priority", .vStr (priorityOrDefault request.priority)),
       ("context", optStrVal request.context),
       ("simulated", .vBool true)] }

/-! ## Route handlers (`src/routes/taskRoutes.ts`) -/

/-- JavaScript value found in the `task` field of a parsed JSON request
body. -/
inductive BodyVal where
  | missing
  | jnull
  | jbool (b : Bool)
  | jnum (n : Int)
  | jstr (s : String)
  | jobj
deriving DecidableEq, Repr

/-- JavaScript truthiness test `!task` (negated): `undefined`, `null`,
`false`, `0` and the empty string are falsy; objects are truthy. -/
def isFalsyBody : BodyVal → Bool
  | .missing => true
  | .jnull => true
  | .jbool b => !b
  | .jnum n => decide (n = 0)
  | .jstr s => decide (s = "")
  | .jobj => false

/-- Test `typeof task === 'string'`. -/
def isStringBody : BodyVal → Bool
  | .jstr _ => true
  | _ => false

/-- String contents of a body value (only reached when it is a string). -/
def bodyString : BodyVal → String
  | .jstr s => s
  | _ => ""

/-- Validation guard of `POST /tasks/process`:
`!task || typeof task !== 'string' || task.trim().length === 0`. -/
def taskValidationFails (v : BodyVal) : Bool :=
  isFalsyBody v || !(isStringBody v) ||
    (match v with
     | .jstr s => decide ((jsTrim s).data.length = 0)
     | _ => true)

/-- Handler of `POST /tasks/process`.  Parameters carry the inbound request
(`taskVal`, `context`, `priority`, `userAgent`, `ipAddress`), the
environment (`hasApiKey` is the truthiness of `OPENAI_API_KEY`), the
nondeterministic processor inputs (`taskId`, `now`, `nowLocale`, `elapsed`,
`backend`), the injected storage fault for the save, and the store state.
Returns the HTTP status code and the store state afterwards: 400 on failed
validation (before any processing or persistence), 200 on the normal path,
500 when `saveInteractionLog` throws into the route's `catch`. -/
def postProcess (taskVal : BodyVal) (context priority : Option String)
    (hasApiKey : Bool) (taskId now nowLocale : String) (elapsed : Int)
    (backend : Except JsThrown String)
    (userAgent ipAddress : Option String)
    (saveFault : Option EngineFault) (db : Db) : Nat × Db :=
  if taskValidationFails taskVal then (400, db)
  else
    let request : TaskRequest :=
      { task := jsTrim (bodyString taskVal)
        context := context
        priority := priority }
    let response :=
      if hasApiKey then processTask taskId now elapsed backend request
      else simulateTaskProcessing taskId now nowLocale elapsed request
    let log : InteractionLog :=
      { id := response.id
        task := response.task
        response := response.response
        status := response.status
        timestamp := response.timestamp
        processingTime := response.processingTime
        userAgent := userAgent
        ipAddress := ipAddress
        metadata := response.metadata }
    match saveInteractionLog saveFault log db with
    | .ok db' => (200, db')
    | .error _ => (500, db)

/-- Decimal value of a digit run. -/
def digitsToNat (ds : List Char) : Nat :=
  ds.foldl (fun acc c => acc * 10 + (c.toNat - 48)) 0

/-- Model of the JavaScript builtin `parseInt` on its base-10 path (as the
`GET /tasks/logs` handler uses it): skip leading whitespace, read an
optional sign and then a maximal run of decimal digits, ignoring any
trailing garbage; `none` stands for `NaN` (no digits, or an absent
argument). -/
def jsParseInt (s : String) : Option Int :=
  let cs := s.toList.dropWhile (fun c => c.isWhitespace)
  let signAndRest : Int × List Char :=
    match cs with
    | '-' :: t => (-1, t)
    | '+' :: t => (1, t)
    | t => (1, t)
  let ds := signAndRest.2.takeWhile (fun c => c.isDigit)
  if ds.isEmpty then none else some (signAndRest.1 * (digitsToNat ds : Int))

/-- Value `parseInt(req.query.limit as string)` where an absent query parameter
is `undefined` and parses to `NaN`. -/
def jsParseIntQ (q : Option String) : Option Int :=
  match q with
  | some s => jsParseInt s
  | none => none

/-- JavaScript `x || d` on a parse result: `NaN` and `0` are falsy and
coalesce to the default. -/
def jsIntOrDefault (v : Option Int) (d : Int) : Int :=
  match v with
  | some n => if n = 0 then d else n
  | none => d

/-- Limit computed by the `GET /tasks/logs` handler:
`Math.min(parseInt(req.query.limit as string) || 50, 100)`. -/
def logsLimit (q : Option String) : Int :=
  min (jsIntOrDefault (jsParseIntQ q) 50) 100

/-- Offset computed by the `GET /tasks/logs` handler:
`Math.max(parseInt(req.query.offset as string) || 0, 0)`. -/
def logsOffset (q : Option String) : Int :=
  max (jsIntOrDefault (jsParseIntQ q) 0) 0

/-! ## Order properties of the timestamp comparison -/

theorem lexLe_refl (x : List Char) : lexLe x x = true := by
  induction x with
  | nil => rfl
  | cons a as ih => simp [lexLe, lt_irrefl, ih]

theorem lexLe_total (x y : List Char) : lexLe x y = true ∨ lexLe y x = true := by
  induction x generalizing y with
  | nil => exact Or.inl rfl
  | cons a as ih =>
    cases y with
    | nil => exact Or.inr rfl
    | cons b bs =>
      rcases lt_trichotomy a b with hab | hab | hab
      · exact Or.inl (by simp [lexLe, hab])
      · subst hab
        rcases ih bs with h | h
        · exact Or.inl (by simp [lexLe, lt_irrefl, h])
        · exact Or.inr (by simp [lexLe, lt_irrefl, h])
      · exact Or.inr (by simp [lexLe, hab])

theorem lexLe_trans {x y z : List Char} (hxy : lexLe x y = true)
    (hyz : lexLe y z = true) : lexLe x z = true := by
  induction x generalizing y z with
  | nil => rfl
  | cons a as ih =>
    cases y with
    | nil => simp [lexLe] at hxy
    | cons b bs =>
      cases z with
      | nil => simp [lexLe] at hyz
      | cons c cs =>
        rcases lt_trichotomy a b with hab | hab | hab
        · rcases lt_trichotomy b c with hbc | hbc | hbc
          · simp [lexLe, lt_trans hab hbc]
          · subst hbc; simp [lexLe, hab]
          · simp [lexLe, hbc, asymm hbc] at hyz
        · subst hab
          rcases lt_trichotomy a c with hac | hac | hac
          · simp [lexLe, hac]
          · subst hac
            simp only [lexLe, lt_irrefl, if_false] at hxy hyz ⊢
            exact ih hxy hyz
          · simp [lexLe, hac, asymm hac] at hyz
        · simp [lexLe, hab, asymm hab] at hxy

theorem lexLe_antisymm {x y : List Char} (hxy : lexLe x y = true)
    (hyx : lexLe y x = true) : x = y := by
  induction x generalizing y with
  | nil =>
    cases y with
    | nil => rfl
    | cons b bs => simp [lexLe] at hyx
  | cons a as ih =>
    cases y with
    | nil => simp [lexLe] at hxy
    | cons b bs =>
      rcases lt_trichotomy a b with hab | hab | hab
      · simp [lexLe, hab, asymm hab] at hyx
      · subst hab
        simp only [lexLe, lt_irrefl, if_false] at hxy hyx
        rw [ih hxy hyx]
      · simp [lexLe, hab, asymm hab] at hxy

theorem tsLe_total (a b : String) : tsLe a b ∨ tsLe b a :=
  lexLe_total a.data b.data

theorem tsLe_trans {a b c : String} (h₁ : tsLe a b) (h₂ : tsLe b c) :
    tsLe a c :=
  lexLe_trans h₁ h₂

theorem tsLe_antisymm {a b : String} (h₁ : tsLe a b) (h₂ : tsLe b a) :
    a = b := by
  cases a; cases b
  exact congrArg String.mk (lexLe_antisymm h₁ h₂)

theorem tsLe_refl (a : String) : tsLe a a :=
  lexLe_refl a.data

instance : IsTotal InteractionLog tsDesc :=
  ⟨fun a b => tsLe_total b.timestamp a.timestamp⟩

instance : IsTrans InteractionLog tsDesc :=
  ⟨fun _ _ _ hab hbc => tsLe_trans hbc hab⟩

/-! ## C1: fault behavior of the read-type store operations -/

/-- C1 (amended): a storage fault raised during `getStats` is caught and
converted to the all-zero result, but `getInteractionLogs` (list) and
`getInteractionLogById` have no `try/catch` — an engine fault during either
propagates to the caller unchanged. -/
theorem readOps_fault_behavior (e : EngineFault) (limit offset : Int)
    (id : String) (db : Db) :
    getInteractionLogs (some e) limit offset db = .error e ∧
    getInteractionLogById (some e) id db = .error e ∧
    getStats (some e) db = ⟨0, 0, 0⟩ :=
  ⟨rfl, rfl, rfl⟩

/-- C1 counterexample: an engine fault during `list` is propagated as an
exception rather than being converted to an empty result, contradicting the
claim that none of `list`, `getById`, `stats` ever propagates a storage
exception. -/
theorem list_fault_propagates :
    getInteractionLogs (some ⟨"disk I/O error"⟩) 50 0 ⟨[]⟩ =
      .error ⟨"disk I/O error"⟩ ∧
    getInteractionLogById (some ⟨"disk I/O error"⟩) "log-1" ⟨[]⟩ =
      .error ⟨"disk I/O error"⟩ :=
  ⟨rfl, rfl⟩

/-! ## C2: fault behavior of the delete operations -/

/-- C2 (amended): a storage fault during `deleteById` or `deleteAll` is
caught, not propagated: `deleteById` returns `false` — exactly the result
it reports for an id that is already absent — and `deleteAll` returns `0`,
leaving the state unchanged in both cases. -/
theorem deleteOps_fault_swallowed (e : EngineFault) (id : String) (db : Db) :
    deleteInteractionLog (some e) id db = (false, db) ∧
    deleteAllInteractionLogs (some e) db = (0, db) ∧
    (deleteInteractionLog (some e) id db).1 =
      (deleteInteractionLog none id ⟨[]⟩).1 :=
  ⟨rfl, rfl, rfl⟩

/-- Concrete row used by the fault counterexamples. -/
def rowA : InteractionLog :=
  { id := "log-1"
    task := "analyze leads"
    response := "ok"
    status := "success"
    timestamp := "2024-01-01T00:00:00.000Z"
    processingTime := 12 }

/-- C2 counterexample: with row `log-1` present, a storage fault during
`deleteById "log-1"` yields `(false, unchanged)` — the very result produced
by deleting an absent id on an empty store — instead of propagating the
fault to the caller. -/
theorem deleteById_fault_reports_absent :
    deleteInteractionLog (some ⟨"disk I/O error"⟩) "log-1" ⟨[rowA]⟩ =
      (false, ⟨[rowA]⟩) ∧
    (deleteInteractionLog none "log-1" ⟨[]⟩).1 = false ∧
    deleteAllInteractionLogs (some ⟨"disk I/O error"⟩) ⟨[rowA]⟩ =
      (0, ⟨[rowA]⟩) :=
  ⟨rfl, rfl, rfl⟩

/-! ## C3: aggregate statistics -/

/-- Sum of the CASE-WHEN indicators equals the number of success rows. -/
theorem sum_successIndicator (rows : List InteractionLog) :
    (rows.map successIndicator).sum =
      ((rows.filter fun r => r.status = "success").length : Int) := by
  induction rows with
  | nil => rfl
  | cons r rs ih =>
    by_cases h : r.status = "success"
    · simp [successIndicator, h, List.filter_cons, ih]
      omega
    · simp [successIndicator, h, List.filter_cons, ih]

/-- C3: on a store of N rows with S successes, `stats()` reports
`totalInteractions = N`, `successRate = 100 * S / N` and
`averageProcessingTime` equal to the mean processing time, and on the empty
store it is the all-zero record (no division by zero). -/
theorem getStats_spec (db : Db) :
    (getStats none db).totalInteractions = db.rows.length ∧
    (getStats none db).successRate =
      (if db.rows.length = 0 then 0 else
        100 * ((db.rows.filter fun r => r.status = "success").length : Rat) /
          (db.rows.length : Rat)) ∧
    (getStats none db).averageProcessingTime =
      (if db.rows.length = 0 then 0 else
        ((db.rows.map fun r => r.processingTime).sum : Rat) /
          (db.rows.length : Rat)) ∧
    getStats none ⟨[]⟩ = ⟨0, 0, 0⟩ := by
  refine ⟨rfl, ?_, ?_, rfl⟩
  · by_cases h : db.rows = []
    · simp [getStats, statsQuery, h]
    · have hlen : db.rows.length ≠ 0 := by simpa using h
      simp only [getStats, statsQuery, List.isEmpty_iff, h, if_neg,
        if_false, ite_false, hlen]
      rw [if_pos (show db.rows.length > 0 by omega), Option.getD_some,
        sum_successIndicator]
      push_cast
      ring
  · by_cases h : db.rows = []
    · simp [getStats, statsQuery, jsNumOrZero, h]
    · have hlen : db.rows.length ≠ 0 := by simpa using h
      simp only [getStats, statsQuery, List.isEmpty_iff, h, ite_false, hlen,
        jsNumOrZero]
      split <;> simp_all

/-! ## C4: pagination and ordering of `list` -/

/-- Result of `getInteractionLogs` at offset 0 with a non-negative limit. -/
theorem getLogs_zero_offset (rows : List InteractionLog) (k : Int)
    (hk : 0 ≤ k) :
    getInteractionLogs none k 0 ⟨rows⟩ =
      .ok ((rows.insertionSort tsDesc).take k.toNat) := by
  simp [getInteractionLogs, sqliteWindow, sortByTimestampDesc, not_lt.mpr hk]

/-- C4 (amended): for every store state and every limit k ≥ 0,
`list(limit k, offset 0)` returns a window of k rows drawn from the store,
ordered by timestamp descending and closed upward under "more recent than"
(so it is the k most-recently-timestamped rows); when all timestamps are
pairwise distinct the order is strictly descending.  `list` with offset
equal to the row count returns the empty sequence, and `list` on the empty
store returns the empty sequence rather than an error. -/
theorem getInteractionLogs_spec (rows : List InteractionLog) (k : Int)
    (hk : 0 ≤ k) :
    ∃ L, getInteractionLogs none k 0 ⟨rows⟩ = .ok L ∧
      L.Pairwise tsDesc ∧
      ((rows.map fun r => r.timestamp).Nodup →
        L.Pairwise fun a b => tsLt b.timestamp a.timestamp) ∧
      L.length = min k.toNat rows.length ∧
      (∀ a ∈ L, a ∈ rows) ∧
      (∀ a ∈ L, ∀ b ∈ rows, tsLt a.timestamp b.timestamp → b ∈ L) ∧
      getInteractionLogs none k (rows.length : Int) ⟨rows⟩ = .ok [] ∧
      getInteractionLogs none k 0 (⟨[]⟩ : Db) = .ok [] := by
  classical
  set sorted := rows.insertionSort tsDesc with hsortedDef
  have hsorted : sorted.Pairwise tsDesc := List.sorted_insertionSort tsDesc rows
  have hperm : List.Perm sorted rows := List.perm_insertionSort tsDesc rows
  have hlen : sorted.length = rows.length := hperm.length_eq
  refine ⟨sorted.take k.toNat, getLogs_zero_offset rows k hk, ?_, ?_, ?_, ?_, ?_, ?_, ?_⟩
  · exact List.Pairwise.sublist (List.take_sublist _ _) hsorted
  · intro hnd
    have hndSorted : (sorted.map fun r => r.timestamp).Nodup :=
      ((hperm.map fun r => r.timestamp).nodup_iff).mpr hnd
    have hndTake : ((sorted.take k.toNat).map fun r => r.timestamp).Nodup :=
      hndSorted.sublist ((List.take_sublist _ _).map _)
    have hne : (sorted.take k.toNat).Pairwise
        fun a b => a.timestamp ≠ b.timestamp :=
      List.pairwise_map.mp hndTake
    have hdesc : (sorted.take k.toNat).Pairwise tsDesc :=
      List.Pairwise.sublist (List.take_sublist _ _) hsorted
    exact (hdesc.and hne).imp fun h => ⟨h.1, h.2.symm⟩
  · rw [List.length_take, hlen]
  · intro a ha
    exact hperm.mem_iff.mp (List.take_subset _ _ ha)
  · intro a ha b hb hlt
    have hbs : b ∈ sorted := hperm.mem_iff.mpr hb
    rw [← List.take_append_drop k.toNat sorted] at hbs
    rcases List.mem_append.mp hbs with hbin | hbin
    · exact hbin
    · exfalso
      have hsplit := hsorted
      rw [← List.take_append_drop k.toNat sorted] at hsplit
      have hrel := (List.pairwise_append.mp hsplit).2.2 a ha b hbin
      exact hlt.2 (tsLe_antisymm hlt.1 hrel)
  · have hmax : max (rows.length : Int) 0 = (rows.length : Int) := by
      simp
    simp only [getInteractionLogs, sqliteWindow, sortByTimestampDesc, hmax,
      Int.toNat_natCast, ← hsortedDef, ← hlen, List.drop_length]
    split <;> simp
  · simp [getInteractionLogs, sqliteWindow, sortByTimestampDesc,
      List.insertionSort]

/-- Row sharing `rowA`'s timestamp, for the ordering counterexample. -/
def rowTie : InteractionLog :=
  { id := "log-2"
    task := "summarize calls"
    response := "ok"
    status := "success"
    timestamp := "2024-01-01T00:00:00.000Z"
    processingTime := 7 }

/-- C4 counterexample: a store holding two rows with equal timestamps is
returned by `list(limit 2, offset 0)` in an order that is not strictly
descending (the two timestamps are equal), so the claim's "strictly
descending timestamp order" fails on states with tied timestamps. -/
theorem list_tie_not_strictly_sorted :
    getInteractionLogs none 2 0 ⟨[rowA, rowTie]⟩ = .ok [rowA, rowTie] ∧
    ¬ ([rowA, rowTie].Pairwise fun a b => tsLt b.timestamp a.timestamp) :=
  ⟨rfl, by decide⟩

/-- C4 witness: the amended listing theorem applied to the singleton store
at limit 1. -/
theorem getInteractionLogs_spec_witness :
    (0 : Int) ≤ 1 ∧
    ∃ L, getInteractionLogs none 1 0 ⟨[rowA]⟩ = .ok L ∧
      L.Pairwise tsDesc ∧
      (([rowA].map fun r => r.timestamp).Nodup →
        L.Pairwise fun a b => tsLt b.timestamp a.timestamp) ∧
      L.length = min (1 : Int).toNat [rowA].length ∧
      (∀ a ∈ L, a ∈ [rowA]) ∧
      (∀ a ∈ L, ∀ b ∈ [rowA], tsLt a.timestamp b.timestamp → b ∈ L) ∧
      getInteractionLogs none 1 (([rowA].length : Nat) : Int) ⟨[rowA]⟩ =
        .ok [] ∧
      getInteractionLogs none 1 0 (⟨[]⟩ : Db) = .ok [] :=
  ⟨by decide, getInteractionLogs_spec [rowA] 1 (by decide)⟩

/-! ## C5: schema invariant and rejection behavior of `save` -/

/-- C5: on an invariant-satisfying store, `save` fails with a storage error
whenever the log's id already exists or its status is outside the
two-value enum (the `Except.error` result carries no new state, so the
store is unchanged); a successful `save` only appends the new row and
preserves the invariant, and both delete operations preserve it as well. -/
theorem saveInteractionLog_invariant (log : InteractionLog) (db : Db)
    (hInv : Inv db) :
    ((log.id ∈ db.rows.map fun r => r.id) ∨ validStatus log.status = false →
      ∃ e, saveInteractionLog none log db = .error e) ∧
    (∀ db', saveInteractionLog none log db = .ok db' →
      Inv db' ∧ db'.rows = db.rows ++ [rowOfLog log]) ∧
    (∀ id, Inv (deleteInteractionLog none id db).2) ∧
    Inv (deleteAllInteractionLogs none db).2 := by
  refine ⟨?_, ?_, ?_, ?_⟩
  · intro h
    by_cases hdup : (db.rows.any fun r => r.id = log.id) = true
    · exact ⟨⟨"UNIQUE constraint failed: interaction_logs.id"⟩,
        by simp [saveInteractionLog, hdup]⟩
    · have hval : validStatus log.status = false := by
        rcases h with h | h
        · exfalso
          rcases List.mem_map.mp h with ⟨r, hr, hid⟩
          exact hdup (List.any_eq_true.mpr ⟨r, hr, by simp [hid]⟩)
        · exact h
      exact ⟨⟨"CHECK constraint failed: interaction_logs"⟩,
        by simp [saveInteractionLog, hdup, hval]⟩
  · intro db' hok
    simp only [saveInteractionLog] at hok
    split at hok
    · cases hok
    · split at hok
      · rename_i hdup hval
        cases hok
        have hids : ∀ r ∈ db.rows, r.id ≠ log.id := by
          rw [Bool.not_eq_true, List.any_eq_false] at hdup
          intro r hr
          simpa using hdup r hr
        refine ⟨⟨?_, ?_⟩, rfl⟩
        · rw [List.map_append]
          refine List.Nodup.append hInv.1 (by simp) ?_
          intro a ha hb
          simp only [List.map_cons, List.map_nil,
            List.mem_singleton] at hb
          rcases List.mem_map.mp ha with ⟨r, hr, hid⟩
          exact hids r hr (by rw [hid, hb]; rfl)
        · intro r hr
          rcases List.mem_append.mp hr with hr | hr
          · exact hInv.2 r hr
          · rcases List.mem_singleton.mp hr with rfl
            simpa [rowOfLog] using hval
      · cases hok
  · intro id
    refine ⟨?_, ?_⟩
    · exact hInv.1.sublist ((List.filter_sublist _).map _)
    · intro r hr
      exact hInv.2 r (List.mem_of_mem_filter hr)
  · exact ⟨List.nodup_nil, by simp [deleteAllInteractionLogs]⟩

/-- C5 witness: the invariant theorem applied to the one-row store, where
saving `rowA` again is a primary-key violation. -/
theorem saveInteractionLog_invariant_witness :
    Inv ⟨[rowA]⟩ ∧
    (rowA.id ∈ [rowA].map fun r => r.id) ∧
    (∃ e, saveInteractionLog none rowA ⟨[rowA]⟩ = .error e) :=
  ⟨by decide, by decide,
    (saveInteractionLog_invariant rowA ⟨[rowA]⟩ (by decide)).1
      (Or.inl (by decide))⟩

/-! ## C6: failure absorption in the live-strategy processor -/

/-- C6: `processTask` is a total function of the backend outcome — it never
raises past its own boundary.  When the backend call fails with any thrown
value, the result has `status = 'error'`, a descriptive error string as the
response, and the failure message under the `error` metadata key; when the
backend succeeds the result has `status = 'success'`. -/
theorem processTask_backend_failure (taskId now : String) (elapsed : Int)
    (e : JsThrown) (request : TaskRequest) :
    (processTask taskId now elapsed (.error e) request).status = "error" ∧
    (processTask taskId now elapsed (.error e) request).response =
      "Error processing task: " ++ jsErrorMessage e ∧
    (∃ m, (processTask taskId now elapsed (.error e) request).metadata =
        some m ∧
      m.lookup "error" = some (.vStr (jsErrorMessage e))) ∧
    ∀ s, (processTask taskId now elapsed (.ok s) request).status =
      "success" :=
  ⟨rfl, rfl, ⟨_, rfl, rfl⟩, fun _ => rfl⟩

/-! ## C7: request validation in `POST /tasks/process` -/

/-- C7: when the `task` body field is missing, not a string, or a string
that is empty after trimming, the handler answers 400 and the store state
is untouched — no `InteractionLog` row is created for the rejected
request. -/
theorem postProcess_rejects_invalid_task
    (v : BodyVal) (context priority : Option String) (hasApiKey : Bool)
    (taskId now nowLocale : String) (elapsed : Int)
    (backend : Except JsThrown String) (userAgent ipAddress : Option String)
    (saveFault : Option EngineFault) (db : Db)
    (hv : v = BodyVal.missing ∨
      (∃ s, v = BodyVal.jstr s ∧ jsTrim s = "") ∨
      ∀ s, v ≠ BodyVal.jstr s) :
    postProcess v context priority hasApiKey taskId now nowLocale elapsed
      backend userAgent ipAddress saveFault db = (400, db) := by
  have hfail : taskValidationFails v = true := by
    rcases hv with rfl | ⟨s, rfl, htrim⟩ | h
    · rfl
    · simp [taskValidationFails, htrim]
    · cases v with
      | jstr s => exact absurd rfl (h s)
      | missing => rfl
      | jnull => rfl
      | jbool b => cases b <;> rfl
      | jnum n => simp [taskValidationFails, isFalsyBody, isStringBody]
      | jobj => rfl
  simp [postProcess, hfail]

/-- C7 witness: a whitespace-only task is rejected with 400 and the empty
store stays empty. -/
theorem postProcess_rejects_invalid_task_witness :
    (∃ s, BodyVal.jstr "   " = BodyVal.jstr s ∧ jsTrim s = "") ∧
    postProcess (.jstr "   ") none none false "id-1" "now" "loc" 3
      (.ok "x") none none none ⟨[]⟩ = (400, ⟨[]⟩) :=
  ⟨⟨"   ", rfl, by decide⟩,
    postProcess_rejects_invalid_task (.jstr "   ") none none false "id-1"
      "now" "loc" 3 (.ok "x") none none none ⟨[]⟩
      (Or.inr (Or.inl ⟨"   ", rfl, by decide⟩))⟩

/-! ## C8: opaque metadata round-trip -/

/-- C8: after a successful `save`, reading the log back by id returns its
row, and that row's metadata equals the saved log's metadata — the store
passes the (serialized) bag through untouched. -/
theorem metadata_roundtrip (log : InteractionLog) (db db' : Db)
    (hsave : saveInteractionLog none log db = .ok db') :
    getInteractionLogById none log.id db' = .ok (some (rowOfLog log)) ∧
    (rowOfLog log).metadata = log.metadata := by
  simp only [saveInteractionLog] at hsave
  split at hsave
  · cases hsave
  · split at hsave
    · rename_i hdup _
      cases hsave
      refine ⟨?_, rfl⟩
      have hnone : db.rows.find? (fun r => r.id = log.id) = none := by
        rw [List.find?_eq_none]
        intro r hr
        rw [Bool.not_eq_true, List.any_eq_false] at hdup
        simpa using hdup r hr
      simp [getInteractionLogById, List.find?_append, hnone, rowOfLog]
    · cases hsave

/-- Log with a metadata bag, for the round-trip witness. -/
def logMeta : InteractionLog :=
  { id := "log-9"
    task := "analyze leads"
    response := "ok"
    status := "success"
    timestamp := "2024-02-02T10:00:00.000Z"
    processingTime := 40
    metadata := some [("priority", .vStr "high"), ("simulated", .vBool true)] }

/-- C8 witness: saving `logMeta` into the empty store and reading it back
returns the identical metadata bag. -/
theorem metadata_roundtrip_witness :
    saveInteractionLog none logMeta ⟨[]⟩ = .ok ⟨[rowOfLog logMeta]⟩ ∧
    (getInteractionLogById none logMeta.id ⟨[rowOfLog logMeta]⟩ =
        .ok (some (rowOfLog logMeta)) ∧
      (rowOfLog logMeta).metadata = logMeta.metadata) :=
  ⟨rfl, metadata_roundtrip logMeta ⟨[]⟩ ⟨[rowOfLog logMeta]⟩ rfl⟩

/-! ## C9: simulation strategy -/

set_option maxRecDepth 8192 in
/-- Decomposition of the lead-analysis template around the literal phrase
"Lead Analysis Report" it starts with. -/
theorem leadAnalysisReport_decomp :
    leadAnalysisReport =
      "" ++ ("Lead Analysis Report" ++ ":\n      \nğŸ“Š **Summary**\n- Total leads: 150\n- Qualified leads: 45 (30%)\n- Hot prospects: 12 (8%)\n\nğŸ¯ **Top Performing Sources**\n1. LinkedIn (35% conversion)\n2. Website referrals (28% conversion)\n3. Email campaigns (22% conversion)\n\nğŸ“ˆ **Recommendations**\n- Focus on LinkedIn lead nurturing\n- Optimize website conversion funnel\n- Implement lead scoring system\n\nâ° **Next Steps**\n- Schedule follow-up calls for hot prospects\n- Create targeted content for qualified leads\n- Review and update lead qualification criteria") := by
  decide

set_option maxRecDepth 8192 in
/-- C9: the simulation strategy always returns `status = 'success'` with
`metadata.simulated = true`; on task text "analyze leads" its response
contains the literal phrase "Lead Analysis Report", and on the
unrecognized task text "xyz123" its response embeds "xyz123" verbatim. -/
theorem simulateTaskProcessing_spec (taskId now nowLocale : String)
    (elapsed : Int) (ctx pri : Option String) (request : TaskRequest) :
    (simulateTaskProcessing taskId now nowLocale elapsed request).status =
      "success" ∧
    (∃ m, (simulateTaskProcessing taskId now nowLocale elapsed
        request).metadata = some m ∧
      m.lookup "simulated" = some (JsVal.vBool true)) ∧
    (∃ pre post, (simulateTaskProcessing taskId now nowLocale elapsed
        { task := "analyze leads", context := ctx, priority := pri
          : TaskRequest }).response =
      pre ++ ("Lead Analysis Report" ++ post)) ∧
    (∃ pre post, (simulateTaskProcessing taskId now nowLocale elapsed
        { task := "xyz123", context := ctx, priority := pri
          : TaskRequest }).response =
      pre ++ ("xyz123" ++ post)) := by
  refine ⟨rfl, ⟨_, rfl, rfl⟩,
    ⟨"", ":\n      \nğŸ“Š **Summary**\n- Total leads: 150\n- Qualified leads: 45 (30%)\n- Hot prospects: 12 (8%)\n\nğŸ¯ **Top Performing Sources**\n1. LinkedIn (35% conversion)\n2. Website referrals (28% conversion)\n3. Email campaigns (22% conversion)\n\nğŸ“ˆ **Recommendations**\n- Focus on LinkedIn lead nurturing\n- Optimize website conversion funnel\n- Implement lead scoring system\n\nâ° **Next Steps**\n- Schedule follow-up calls for hot prospects\n- Create targeted content for qualified leads\n- Review and update lead qualification criteria",
      leadAnalysisReport_decomp⟩, ?_⟩
  · exact ⟨"Task completed successfully: \"",
      "\"\n\nâœ… **Status**: Completed\nğŸ“… **Timestamp**: " ++
        (nowLocale ++
          ("\nğŸ¯ **Priority**: " ++
            (priorityOrDefault pri ++
              ("\n\n" ++
                (contextLine ctx ++
                  "\n\nThe task has been processed and is ready for review."))))),
      rfl⟩

/-! ## C10: limit clamping in `GET /tasks/logs` -/

/-- C10: the limit passed to the store is `min(parseInt(limit), 100)`
whenever `parseInt` yields a nonzero number, and the default 50 when the
parameter is absent, non-numeric, or exactly 0; a negative parsed limit is
passed through unchanged (only the upper bound 100 is enforced), while the
offset is clamped to be non-negative. -/
theorem logsLimit_spec (q : Option String) :
    (jsParseIntQ q = none → logsLimit q = 50) ∧
    (jsParseIntQ q = some 0 → logsLimit q = 50) ∧
    (∀ n : Int, jsParseIntQ q = some n → n ≠ 0 → logsLimit q = min n 100) ∧
    (∀ n : Int, jsParseIntQ q = some n → n < 0 → logsLimit q = n) ∧
    ∀ q', (0 : Int) ≤ logsOffset q' := by
  refine ⟨?_, ?_, ?_, ?_, ?_⟩
  · intro h
    simp [logsLimit, jsIntOrDefault, h]
  · intro h
    simp [logsLimit, jsIntOrDefault, h]
  · intro n h hn
    simp [logsLimit, jsIntOrDefault, h, hn]
  · intro n h hn
    have hne : n ≠ 0 := by omega
    simp only [logsLimit, jsIntOrDefault, h, hne, if_false, ite_false]
    exact min_eq_left (by omega)
  · intro q'
    exact le_max_right _ _

/-- C10 witness: a negative limit string passes through un-clamped, and an
absent parameter falls back to the default 50. -/
theorem logsLimit_spec_witness :
    (jsParseIntQ (some "-7") = some (-7) ∧ logsLimit (some "-7") = -7) ∧
    (jsParseIntQ (none : Option String) = none ∧ logsLimit none = 50) :=
  ⟨⟨by decide,
      (logsLimit_spec (some "-7")).2.2.2.1 (-7) (by decide) (by decide)⟩,
    ⟨rfl, (logsLimit_spec none).1 rfl⟩⟩

end TaskApp

